import Mathlib

/-!
Shallow embedding of the RediSearch C API coordinator
(`src/redisearch_api.c`): index creation and drop, the GC handoff flag,
the reader/writer lock discipline around query compilation, the query
compilation pipeline (`handleIterCommon`), result iteration, and the
document add/delete mutation paths.  External collaborators that are not
part of the source file (document table, add-document context, query AST
helpers) are modelled from the specification and are marked as such in
their doc comments.
-/

set_option autoImplicit false

namespace RediSearchApi

/-! ## GC handoff and index drop (`RediSearch_DropIndex`) -/

/-- The collector state flag (`ForkGCCtxType` in the code).  The code's
`ForkGCCtxType_FREED` is the state the specification calls Doomed: the mark
the drop operation writes so the collector terminates itself. -/
inductive GCType where
  | active
  | freed
  deriving DecidableEq

/-- Observable events of `RediSearch_DropIndex`, in program order. -/
inductive DropEv where
  | acquireWrite
  | setGCType (t : GCType)
  | dictRelease
  | freeSpecSync
  | releaseWrite
  deriving DecidableEq

/-- Event trace of `RediSearch_DropIndex`: take the write gate; when the
spec has a collector (`sp->gc`), set its flag to `ForkGCCtxType_FREED`;
release the keys dictionary; free the spec synchronously; drop the gate. -/
def RediSearch_DropIndex (hasGC : Bool) : List DropEv :=
  [DropEv.acquireWrite] ++
    (if hasGC then [DropEv.setGCType GCType.freed] else []) ++
    [DropEv.dictRelease, DropEv.freeSpecSync, DropEv.releaseWrite]

/-- The collector flag value after a trace of drop events, starting from
`init`: the last `setGCType` write wins. -/
def gcFlagAfter (init : GCType) (tr : List DropEv) : GCType :=
  tr.foldl (fun f e => match e with | DropEv.setGCType t => t | _ => f) init

/-- Modelled from the spec: the collector's periodic self-check first reads
the state flag and terminates without touching (dereferencing) the index
when it observes the freed/doomed state; only an active collector goes on
to touch index memory. -/
def collectorCheckTouchesIndex (flag : GCType) : Bool :=
  match flag with
  | GCType.active => true
  | GCType.freed => false

/-! ## Index creation defaults (`RediSearch_CreateIndex`,
`RediSearch_CreateIndexOptions`) -/

/-- GC policy constants (`GC_POLICY_NONE`, `GC_POLICY_FORK`). -/
inductive GCPolicy where
  | NONE
  | FORK
  deriving DecidableEq

/-- The caller-visible `RSIndexOptions` fields the coordinator reads. -/
structure RSIndexOptions where
  gcPolicy : GCPolicy
  flags : Nat
  deriving DecidableEq

/-- `RSIDXOPT_DOCTBLSIZE_UNLIMITED` option bit. -/
def RSIDXOPT_DOCTBLSIZE_UNLIMITED : Nat := 1

/-- The aspects of the freshly created `IndexSpec` that
`RediSearch_CreateIndex` decides from its options. -/
structure IndexCreateResult where
  temporary : Bool
  docMaxUnlimited : Bool
  gcStarted : Bool
  deriving DecidableEq

/-- `RediSearch_CreateIndex`: a null options pointer is replaced by a stack
default whose only initialised field is `gcPolicy = GC_POLICY_FORK`; the
index is flagged temporary; the doc-table limit is lifted when the option
bit is set; a collector is started exactly when the policy is not
`GC_POLICY_NONE`. -/
def RediSearch_CreateIndex (options : Option RSIndexOptions) : IndexCreateResult :=
  let opts := match options with
    | none => ({ gcPolicy := GCPolicy.FORK, flags := 0 } : RSIndexOptions)
    | some o => o
  { temporary := true
    docMaxUnlimited := opts.flags &&& RSIDXOPT_DOCTBLSIZE_UNLIMITED != 0
    gcStarted := opts.gcPolicy != GCPolicy.NONE }

/-- `RediSearch_CreateIndexOptions`: a zeroed options object whose GC
policy is then explicitly set to `GC_POLICY_NONE`. -/
def RediSearch_CreateIndexOptions : RSIndexOptions :=
  { gcPolicy := GCPolicy.NONE, flags := 0 }

/-! ## Query compilation pipeline (`handleIterCommon`) and iterator release

Query trees are identified by a numeric object id; the pipeline's observable
effects (lock transitions, frees, the error out-parameter store) form an
event trace.  The outcomes of the external collaborators `QAST_Parse`,
`QAST_Expand` and `QAST_Iterate` (whose bodies are not part of this source
file) are inputs of the embedding. -/

/-- Observable effects of the compilation pipeline and of iterator release. -/
inductive Ev where
  | acquireRead
  | releaseRead
  | freeTree (t : Nat)
  | freeInternal
  | scorerFree
  | freeIterStruct
  | setErrorOut (msg : String)
  deriving DecidableEq

/-- Number of events in a trace satisfying a discriminator. -/
def countEv (p : Ev → Bool) (l : List Ev) : Nat := (l.filter p).length

/-- Discriminator for read-gate acquisitions. -/
def Ev.isAcquireRead : Ev → Bool
  | Ev.acquireRead => true
  | _ => false

/-- Discriminator for read-gate releases. -/
def Ev.isReleaseRead : Ev → Bool
  | Ev.releaseRead => true
  | _ => false

/-- Discriminator for the `rm_free(it)` release of the iterator struct. -/
def Ev.isFreeIterStruct : Ev → Bool
  | Ev.freeIterStruct => true
  | _ => false

/-- Discriminator for a free of the query-tree object `t`. -/
def Ev.isFreeTreeOf (t : Nat) : Ev → Bool
  | Ev.freeTree u => u == t
  | _ => false

/-- The fields of `RS_ApiIter` the coordinator logic reads: whether
`it->internal` is non-null, which tree object `it->qast.root` holds, and
whether the scorer (and its free function) was bound. -/
structure RS_ApiIter where
  internal : Bool
  qastRoot : Option Nat
  scorerBound : Bool
  deriving DecidableEq

/-- A `QueryError` status: `none` when no error was set. -/
def QueryErrorStatus : Type := Option String

/-- Modelled from the spec: `QueryError_GetError` yields the human-readable
message of the status, with a generic fallback when no detail was set. -/
def QueryError_GetError : Option String → String
  | some m => m
  | none => "Unknown error"

/-- `RediSearch_ResultsIteratorFree`: free the internal executable iterator
when present, run the scorer's free function when bound, destroy the query
AST (`QAST_Destroy`, modelled from the spec: frees the tree still rooted in
`it->qast`), free the iterator struct, and release the read gate. -/
def RediSearch_ResultsIteratorFree (it : RS_ApiIter) : List Ev :=
  (if it.internal then [Ev.freeInternal] else []) ++
    (if it.scorerBound then [Ev.scorerFree] else []) ++
    (match it.qastRoot with
     | some t => [Ev.freeTree t]
     | none => []) ++
    [Ev.freeIterStruct, Ev.releaseRead]

/-- The two query inputs of `handleIterCommon`: a query string
(`QUERY_INPUT_STRING`) or a caller-built tree (`QUERY_INPUT_NODE`). -/
inductive QueryInput where
  | str (s : String)
  | node (qn : Nat)
  deriving DecidableEq

/-- Outcomes of the external pipeline stages for one compilation call:
the tree produced by `QAST_Parse` (with its error message on failure),
whether `QAST_Expand` succeeded, and whether `QAST_Iterate` produced an
executable iterator (it may fail with or without setting the status). -/
structure ExtOutcomes where
  parseResult : Option Nat
  parseErrMsg : String
  expandOk : Bool
  expandErrMsg : String
  iterOk : Bool
  iterErrMsg : Option String
  deriving DecidableEq

/-- The `end:` label of `handleIterCommon`: for a node input, free
`it->qast.root` and null it; then, when the status carries an error or no
internal iterator was produced, free the iterator (releasing the read
gate) and store the status message into the error out-parameter when one
was supplied. -/
def endBlock (inp : QueryInput) (it : RS_ApiIter) (status : Option String)
    (errorSupplied : Bool) : Option RS_ApiIter × List Ev :=
  let nodeFree : RS_ApiIter × List Ev :=
    match inp with
    | QueryInput.node _ =>
      (match it.qastRoot with
       | some t => ({ it with qastRoot := none }, [Ev.freeTree t])
       | none => (it, []))
    | QueryInput.str _ => (it, [])
  let it1 := nodeFree.1
  let evA := nodeFree.2
  if status.isSome || !it1.internal then
    (none,
     evA ++ RediSearch_ResultsIteratorFree it1 ++
       (if errorSupplied then [Ev.setErrorOut (QueryError_GetError status)] else []))
  else
    (some it1, evA)

/-- The stages of `handleIterCommon` after the tree was acquired: expand
(failing with its message), compile to an executable iterator (failure may
leave the status clean), bind the scorer, then fall through to `end:`. -/
def afterParse (inp : QueryInput) (it : RS_ApiIter) (ext : ExtOutcomes)
    (errorSupplied : Bool) : Option RS_ApiIter × List Ev :=
  if ext.expandOk then
    if ext.iterOk then
      endBlock inp { it with internal := true, scorerBound := true } none errorSupplied
    else
      endBlock inp it ext.iterErrMsg errorSupplied
  else
    endBlock inp it (some ext.expandErrMsg) errorSupplied

/-- `handleIterCommon`: acquire the read gate, allocate the zeroed
iterator, acquire the tree (parse the string, or adopt the caller's node),
then run the remaining stages and the `end:` label. -/
def handleIterCommon (inp : QueryInput) (ext : ExtOutcomes)
    (errorSupplied : Bool) : Option RS_ApiIter × List Ev :=
  let it0 : RS_ApiIter := { internal := false, qastRoot := none, scorerBound := false }
  let body :=
    match inp with
    | QueryInput.str _ =>
      match ext.parseResult with
      | none => endBlock inp it0 (some ext.parseErrMsg) errorSupplied
      | some t => afterParse inp { it0 with qastRoot := some t } ext errorSupplied
    | QueryInput.node qn => afterParse inp { it0 with qastRoot := some qn } ext errorSupplied
  (body.1, Ev.acquireRead :: body.2)

/-- `RediSearch_IterateQuery`: string-input wrapper of `handleIterCommon`. -/
def RediSearch_IterateQuery (s : String) (ext : ExtOutcomes)
    (errorSupplied : Bool) : Option RS_ApiIter × List Ev :=
  handleIterCommon (QueryInput.str s) ext errorSupplied

/-- `RediSearch_GetResultsIterator`: node-input wrapper of
`handleIterCommon`; it passes a null error out-parameter. -/
def RediSearch_GetResultsIterator (qn : Nat) (ext : ExtOutcomes) :
    Option RS_ApiIter × List Ev :=
  handleIterCommon (QueryInput.node qn) ext false

/-- The tree the pipeline has adopted by the time `end:` runs: the
caller's node for a node input, the parse result for a string input. -/
def adoptedTree (inp : QueryInput) (ext : ExtOutcomes) : Option Nat :=
  match inp with
  | QueryInput.node qn => some qn
  | QueryInput.str _ => ext.parseResult

/-- Whether one of the three compilation stages fails on this input:
parse (string inputs only), expand, or compile-to-iterator. -/
def compileStageFails (inp : QueryInput) (ext : ExtOutcomes) : Bool :=
  match inp with
  | QueryInput.str _ => ext.parseResult.isNone || !ext.expandOk || !ext.iterOk
  | QueryInput.node _ => !ext.expandOk || !ext.iterOk

/-! ## Document table, result iteration, and the mutation API -/

/-- A document-table entry's metadata: its key and the tombstone flag
(`flags & Document_Deleted`). -/
structure DocMeta where
  key : String
  deleted : Bool
  deriving DecidableEq

/-- Modelled from the spec: the document table maps keys to internal
numeric identifiers (0 reserved for absent) and identifiers to metadata;
`nextId` is the next fresh identifier. -/
structure DocTable where
  byKey : String → Nat
  byId : Nat → Option DocMeta
  nextId : Nat

/-- `DocTable_GetIdR`: key lookup; 0 means absent. -/
def DocTable_GetIdR (t : DocTable) (key : String) : Nat := t.byKey key

/-- `DocTable_Get`: metadata lookup by internal identifier. -/
def DocTable_Get (t : DocTable) (id : Nat) : Option DocMeta := t.byId id

/-- Modelled from the spec: `DocTable_DeleteR` looks the key up; on a hit
it tombstones the entry (the metadata is retained with the deleted flag
set, the key ceases to resolve) and returns nonzero; on a miss it returns
zero and changes nothing. -/
def DocTable_DeleteR (t : DocTable) (key : String) : Int × DocTable :=
  let id := t.byKey key
  if id = 0 then (0, t)
  else
    match t.byId id with
    | none => (0, t)
    | some md =>
      (1,
       { t with
         byKey := fun k => if k = key then 0 else t.byKey k
         byId := fun i => if i = id then some { md with deleted := true } else t.byId i })

/-- `REDISMODULE_OK`. -/
def REDISMODULE_OK : Int := 0

/-- `REDISMODULE_ERR`. -/
def REDISMODULE_ERR : Int := 1

/-- The `IndexSpec` state the mutation API reads and writes: the document
table and the live document count (`sp->stats.numDocuments`). -/
structure IndexSpecSt where
  docs : DocTable
  numDocuments : Int

/-- `RediSearch_DeleteDocument`: look the key up; identifier 0 is a
not-found error leaving everything unchanged; otherwise delete through the
document table, decrementing the live count when the table reports
success. -/
def RediSearch_DeleteDocument (sp : IndexSpecSt) (key : String) : Int × IndexSpecSt :=
  let id := DocTable_GetIdR sp.docs key
  if id = 0 then
    (REDISMODULE_ERR, sp)
  else
    let r := DocTable_DeleteR sp.docs key
    if r.1 ≠ 0 then
      (r.1, { docs := r.2, numDocuments := sp.numDocuments - 1 })
    else
      (REDISMODULE_ERR, sp)

/-- `RediSearch_ResultsIteratorNext`: pull matches from the executable
iterator (its remaining matches are the list of document ids), skip ids
whose metadata is missing or carries the deleted flag, and return the
first live key together with the remaining matches; an exhausted iterator
yields `none`. -/
def RediSearch_ResultsIteratorNext (docs : DocTable) :
    List Nat → Option (String × List Nat)
  | [] => none
  | id :: tl =>
    match DocTable_Get docs id with
    | none => RediSearch_ResultsIteratorNext docs tl
    | some md =>
      if md.deleted then RediSearch_ResultsIteratorNext docs tl
      else some (md.key, tl)

/-- A document id that iteration must skip: its metadata, when present,
carries the deleted flag. -/
def docDead (docs : DocTable) (id : Nat) : Prop :=
  ∀ md, DocTable_Get docs id = some md → md.deleted = true

/-- Observable effects of `RediSearch_IndexAddDocument` relevant to
document-handle ownership. -/
inductive AddEv where
  | acquireWrite
  | releaseWrite
  | freeDocContents
  | freeDocCell
  deriving DecidableEq

/-- Result of `RediSearch_IndexAddDocument`: the status code, the index
state after the call, the error out-parameter, and the effect trace.
`freeDocContents` stands for the release of the field values and strings
the add-context adopted from the document (`AddDocumentCtx_Free`, or the
context teardown at the end of the synchronous submit); `freeDocCell`
stands for `rm_free(d)`, the release of the `Document` record cell that
`RediSearch_CreateDocument` allocated — the submit path performing
`rm_free(d)` after `AddDocumentCtx_Submit` shows the context teardown does
not free that cell. -/
structure AddResult where
  rc : Int
  sp : IndexSpecSt
  errOut : Option String
  events : List AddEv

/-- Modelled from the spec: `AddDocumentCtx_Submit` (synchronous here, as
the call sets `ACTX_F_NOBLOCK`) indexes the document: an absent key
inserts a fresh entry and increments the live count; an existing key
(reached only with the replace option) reuses the entry, leaving the live
count unchanged. -/
def AddDocumentCtx_Submit (sp : IndexSpecSt) (key : String) : IndexSpecSt :=
  let id := sp.docs.byKey key
  if id ≠ 0 then
    { sp with
      docs :=
        { sp.docs with
          byId := fun i =>
            if i = id then some { key := key, deleted := false } else sp.docs.byId i } }
  else
    { docs :=
        { byKey := fun k => if k = key then sp.docs.nextId else sp.docs.byKey k
          byId := fun i =>
            if i = sp.docs.nextId then some { key := key, deleted := false }
            else sp.docs.byId i
          nextId := sp.docs.nextId + 1 }
      numDocuments := sp.numDocuments + 1 }

/-- `RediSearch_IndexAddDocument`: under the write gate, an existing key
without the replace option frees the add-context and returns a conflict
with the message "Document already exists" and no mutation; otherwise the
document is submitted synchronously (insert, or replace when opted in),
the record cell is freed (`rm_free(d)`), and the status reflects the
outcome `indexErr` the external indexing collaborator reported through the
completion callback (`RediSearch_AddDocDone`), which also stores the
message into the caller's error slot when one was supplied. -/
def RediSearch_IndexAddDocument (sp : IndexSpecSt) (key : String)
    (replaceOpt errSupplied : Bool) (indexErr : Option String) : AddResult :=
  if DocTable_GetIdR sp.docs key != 0 && !replaceOpt then
    { rc := REDISMODULE_ERR
      sp := sp
      errOut := if errSupplied then some "Document already exists" else none
      events := [AddEv.acquireWrite, AddEv.freeDocContents, AddEv.releaseWrite] }
  else
    { rc := if indexErr.isSome then REDISMODULE_ERR else REDISMODULE_OK
      sp := AddDocumentCtx_Submit sp key
      errOut := if errSupplied then indexErr else none
      events := [AddEv.acquireWrite, AddEv.freeDocContents, AddEv.freeDocCell,
                 AddEv.releaseWrite] }

/-! ## Field creation (`RediSearch_CreateField`) -/

/-- `RSFLDTYPE_FULLTEXT` type bit. -/
def RSFLDTYPE_FULLTEXT : Nat := 1

/-- `RSFLDTYPE_NUMERIC` type bit. -/
def RSFLDTYPE_NUMERIC : Nat := 2

/-- `RSFLDTYPE_GEO` type bit. -/
def RSFLDTYPE_GEO : Nat := 4

/-- `RSFLDTYPE_TAG` type bit. -/
def RSFLDTYPE_TAG : Nat := 8

/-- `RSFLDOPT_NOINDEX` option bit. -/
def RSFLDOPT_NOINDEX : Nat := 1

/-- `RSFLDOPT_SORTABLE` option bit. -/
def RSFLDOPT_SORTABLE : Nat := 2

/-- `RSFLDOPT_TXTNOSTEM` option bit. -/
def RSFLDOPT_TXTNOSTEM : Nat := 4

/-- `RSFLDOPT_TXTPHONETIC` option bit. -/
def RSFLDOPT_TXTPHONETIC : Nat := 8

/-- `INDEXFLD_T_FULLTEXT` initialised-type bit of a field spec. -/
def INDEXFLD_T_FULLTEXT : Nat := 1

/-- `INDEXFLD_T_NUMERIC` initialised-type bit of a field spec. -/
def INDEXFLD_T_NUMERIC : Nat := 2

/-- `INDEXFLD_T_GEO` initialised-type bit of a field spec. -/
def INDEXFLD_T_GEO : Nat := 4

/-- `INDEXFLD_T_TAG` initialised-type bit of a field spec. -/
def INDEXFLD_T_TAG : Nat := 8

/-- The field-spec fields `RediSearch_CreateField` writes. -/
structure FieldSpecM where
  name : String
  types : Nat
  ftId : Nat
  dynamic : Bool
  notIndexable : Bool
  sortable : Bool
  sortIdx : Nat
  noStem : Bool
  phonetic : Bool
  deriving DecidableEq

/-- The index state field creation reads and writes. -/
structure FieldIndexSt where
  fields : List FieldSpecM
  textIdNext : Nat
  sortablesLen : Nat
  hasPhonetic : Bool
  deriving DecidableEq

/-- Modelled from the spec: the bounded text-field id space (field bits
are stable, so only finitely many text ids exist). -/
def SPEC_MAX_FIELD_ID : Nat := 128

/-- Modelled from the spec: `IndexSpec_CreateTextId` hands out the next
text field id, or a negative value when the id space is exhausted. -/
def IndexSpec_CreateTextId (sp : FieldIndexSt) : Int :=
  if sp.textIdNext < SPEC_MAX_FIELD_ID then Int.ofNat sp.textIdNext else -1

/-- A freshly created, not yet initialised field record
(`IndexSpec_CreateField`). -/
def fsBlank (name : String) : FieldSpecM :=
  { name := name, types := 0, ftId := 0, dynamic := false, notIndexable := false,
    sortable := false, sortIdx := 0, noStem := false, phonetic := false }

/-- How a `RediSearch_CreateField` call ends: the `assert(types)` aborts
the process on an empty type set; a failed text-id allocation returns
NULL; otherwise the created field is returned. -/
inductive CreateFieldResult where
  | aborted
  | failed
  | created (fs : FieldSpecM)
  deriving DecidableEq

/-- `RediSearch_CreateField`: `assert(types)` aborts on an empty type set;
otherwise a fresh field is created, each requested type is initialised
(full-text also allocating a text id, whose exhaustion makes the call
return NULL with the blank field already in the registry), more than one
type marks the field dynamic, and the option bits set not-indexable,
sortable (also taking a sort-table slot), no-stemming and phonetic (the
latter also flagging the index). -/
def RediSearch_CreateField (sp : FieldIndexSt) (name : String)
    (types options : Nat) : CreateFieldResult × FieldIndexSt :=
  if types = 0 then
    (CreateFieldResult.aborted, sp)
  else
    let hasFT := types &&& RSFLDTYPE_FULLTEXT != 0
    let hasNum := types &&& RSFLDTYPE_NUMERIC != 0
    let hasGeo := types &&& RSFLDTYPE_GEO != 0
    let hasTag := types &&& RSFLDTYPE_TAG != 0
    let txtId := IndexSpec_CreateTextId sp
    if hasFT && decide (txtId < 0) then
      (CreateFieldResult.failed, { sp with fields := sp.fields ++ [fsBlank name] })
    else
      let numTypes := (if hasFT then 1 else 0) + (if hasNum then 1 else 0) +
        (if hasGeo then 1 else 0) + (if hasTag then 1 else 0)
      let isSortable := options &&& RSFLDOPT_SORTABLE != 0
      let isPhonetic := options &&& RSFLDOPT_TXTPHONETIC != 0
      let fs : FieldSpecM :=
        { name := name
          types := (if hasFT then INDEXFLD_T_FULLTEXT else 0) |||
            (if hasNum then INDEXFLD_T_NUMERIC else 0) |||
            (if hasGeo then INDEXFLD_T_GEO else 0) |||
            (if hasTag then INDEXFLD_T_TAG else 0)
          ftId := if hasFT then txtId.toNat else 0
          dynamic := decide (1 < numTypes)
          notIndexable := options &&& RSFLDOPT_NOINDEX != 0
          sortable := isSortable
          sortIdx := if isSortable then sp.sortablesLen else 0
          noStem := options &&& RSFLDOPT_TXTNOSTEM != 0
          phonetic := isPhonetic }
      (CreateFieldResult.created fs,
       { fields := sp.fields ++ [fs]
         textIdNext := if hasFT then sp.textIdNext + 1 else sp.textIdNext
         sortablesLen := if isSortable then sp.sortablesLen + 1 else sp.sortablesLen
         hasPhonetic := sp.hasPhonetic || isPhonetic })

/-! ## Concrete instances used by witnesses -/

/-- A compilation-outcome vector on which every stage succeeds. -/
def extOk : ExtOutcomes :=
  { parseResult := some 3, parseErrMsg := "", expandOk := true, expandErrMsg := "",
    iterOk := true, iterErrMsg := none }

/-- A compilation-outcome vector on which expansion fails. -/
def extFail : ExtOutcomes :=
  { parseResult := some 3, parseErrMsg := "", expandOk := false,
    expandErrMsg := "no such term", iterOk := false, iterErrMsg := none }

/-- A one-document table: key `doc1` has identifier 1, live. -/
def docsOne : DocTable :=
  { byKey := fun k => if k = "doc1" then 1 else 0
    byId := fun i => if i = 1 then some { key := "doc1", deleted := false } else none
    nextId := 2 }

/-- An index state holding `docsOne` with one live document. -/
def spOne : IndexSpecSt := { docs := docsOne, numDocuments := 1 }

/-- A table with a tombstoned document 1 (`a`) and a live document 2
(`b`). -/
def docsW : DocTable :=
  { byKey := fun k => if k = "b" then 2 else if k = "a" then 1 else 0
    byId := fun i =>
      if i = 1 then some { key := "a", deleted := true }
      else if i = 2 then some { key := "b", deleted := false }
      else none
    nextId := 3 }

/-- An empty field-registry state. -/
def spFieldsEmpty : FieldIndexSt :=
  { fields := [], textIdNext := 1, sortablesLen := 0, hasPhonetic := false }

end RediSearchApi

namespace RediSearchApi

/-- Claim C1: dropping an index whose collector is active writes the
freed/doomed state to the collector's flag strictly before either of the
two events that release the index's in-memory structures (the keys
dictionary release and the synchronous spec free), and after the drop the
collector's next self-check observes that state and does not touch index
memory. -/
theorem dropIndex_dooms_collector_before_free (hasGC : Bool) (init : GCType)
    (hgc : hasGC = true) (hact : init = GCType.active) :
    (RediSearch_DropIndex hasGC).indexOf (DropEv.setGCType GCType.freed) <
        (RediSearch_DropIndex hasGC).indexOf DropEv.dictRelease ∧
    (RediSearch_DropIndex hasGC).indexOf (DropEv.setGCType GCType.freed) <
        (RediSearch_DropIndex hasGC).indexOf DropEv.freeSpecSync ∧
    DropEv.setGCType GCType.freed ∈ RediSearch_DropIndex hasGC ∧
    DropEv.dictRelease ∈ RediSearch_DropIndex hasGC ∧
    DropEv.freeSpecSync ∈ RediSearch_DropIndex hasGC ∧
    gcFlagAfter init (RediSearch_DropIndex hasGC) = GCType.freed ∧
    collectorCheckTouchesIndex (gcFlagAfter init (RediSearch_DropIndex hasGC)) = false := by
  subst hgc hact
  decide

/-- Witness for C1: the concrete drop of an index with an active collector. -/
theorem dropIndex_dooms_collector_before_free_witness :
    gcFlagAfter GCType.active (RediSearch_DropIndex true) = GCType.freed ∧
    collectorCheckTouchesIndex
      (gcFlagAfter GCType.active (RediSearch_DropIndex true)) = false :=
  ⟨(dropIndex_dooms_collector_before_free true GCType.active rfl rfl).2.2.2.2.2.1,
   (dropIndex_dooms_collector_before_free true GCType.active rfl rfl).2.2.2.2.2.2⟩

/-- Claim C2: every compilation call acquires the read lease exactly once;
when compilation fails the trace of the call itself releases it exactly
once (so the lease is not held after the call returns null), and when an
iterator is returned the call releases nothing and the explicit
`RediSearch_ResultsIteratorFree` of that iterator releases it exactly
once. -/
theorem compile_lease_acquired_once_released_once (inp : QueryInput)
    (ext : ExtOutcomes) (es : Bool) :
    countEv Ev.isAcquireRead (handleIterCommon inp ext es).2 = 1 ∧
    ((handleIterCommon inp ext es).1 = none →
      countEv Ev.isReleaseRead (handleIterCommon inp ext es).2 = 1) ∧
    (∀ it, (handleIterCommon inp ext es).1 = some it →
      countEv Ev.isReleaseRead (handleIterCommon inp ext es).2 = 0 ∧
      countEv Ev.isReleaseRead (RediSearch_ResultsIteratorFree it) = 1) := by
  obtain ⟨pr, pm, eo, em, io, im⟩ := ext
  cases inp <;> cases pr <;> cases eo <;> cases io <;> cases es <;>
    simp [handleIterCommon, afterParse, endBlock, RediSearch_ResultsIteratorFree,
      countEv, Ev.isAcquireRead, Ev.isReleaseRead]

/-- Witness for C2 at concrete inputs: a failed node compilation releases
the lease within the call; a successful one leaves exactly one release to
the explicit iterator free. -/
theorem compile_lease_acquired_once_released_once_witness :
    countEv Ev.isReleaseRead (handleIterCommon (QueryInput.node 5) extFail true).2 = 1 ∧
    countEv Ev.isReleaseRead
      (RediSearch_ResultsIteratorFree
        { internal := true, qastRoot := none, scorerBound := true }) = 1 :=
  ⟨(compile_lease_acquired_once_released_once (QueryInput.node 5) extFail true).2.1 rfl,
   ((compile_lease_acquired_once_released_once (QueryInput.node 5) extOk true).2.2
      { internal := true, qastRoot := none, scorerBound := true } rfl).2⟩

/-- Claim C3: a caller-built tree passed to the node-input compilation path
is freed by the pipeline exactly once — whether compilation succeeds or
fails — and freeing a successfully returned iterator with
`RediSearch_ResultsIteratorFree` frees that tree zero further times. -/
theorem query_tree_freed_exactly_once (qn : Nat) (ext : ExtOutcomes) (es : Bool) :
    countEv (Ev.isFreeTreeOf qn) (handleIterCommon (QueryInput.node qn) ext es).2 = 1 ∧
    (∀ it, (handleIterCommon (QueryInput.node qn) ext es).1 = some it →
      countEv (Ev.isFreeTreeOf qn) (RediSearch_ResultsIteratorFree it) = 0) := by
  obtain ⟨pr, pm, eo, em, io, im⟩ := ext
  cases pr <;> cases eo <;> cases io <;> cases es <;>
    simp [handleIterCommon, afterParse, endBlock, RediSearch_ResultsIteratorFree,
      countEv, Ev.isFreeTreeOf]

/-- Witness for C3: freeing the iterator returned by a successful
node-input compilation does not free tree 5 again. -/
theorem query_tree_freed_exactly_once_witness :
    countEv (Ev.isFreeTreeOf 5)
      (RediSearch_ResultsIteratorFree
        { internal := true, qastRoot := none, scorerBound := true }) = 0 :=
  (query_tree_freed_exactly_once 5 extOk false).2
    { internal := true, qastRoot := none, scorerBound := true } rfl

/-- Claim C4: when any compilation stage (parse, expand, or
compile-to-iterator) fails, `handleIterCommon` returns a null iterator,
releases the read lease exactly once, frees the iterator struct exactly
once, frees the adopted tree (parsed or caller-built) exactly once, and
stores a message into the error out-parameter when one was supplied. -/
theorem compile_failure_unwinds_all_state (inp : QueryInput) (ext : ExtOutcomes)
    (es : Bool) (h : compileStageFails inp ext = true) :
    (handleIterCommon inp ext es).1 = none ∧
    countEv Ev.isReleaseRead (handleIterCommon inp ext es).2 = 1 ∧
    countEv Ev.isFreeIterStruct (handleIterCommon inp ext es).2 = 1 ∧
    (∀ t, adoptedTree inp ext = some t →
      countEv (Ev.isFreeTreeOf t) (handleIterCommon inp ext es).2 = 1) ∧
    (es = true → ∃ m, Ev.setErrorOut m ∈ (handleIterCommon inp ext es).2) := by
  obtain ⟨pr, pm, eo, em, io, im⟩ := ext
  cases inp <;> cases pr <;> cases eo <;> cases io <;> cases es <;>
    simp_all [compileStageFails, adoptedTree, handleIterCommon, afterParse, endBlock,
      RediSearch_ResultsIteratorFree, countEv, Ev.isReleaseRead, Ev.isFreeIterStruct,
      Ev.isFreeTreeOf]

/-- Witness for C4: a failed expansion on a node input returns null, with
the lease released, the struct and tree freed, and the error slot set. -/
theorem compile_failure_unwinds_all_state_witness :
    (handleIterCommon (QueryInput.node 5) extFail true).1 = none ∧
    countEv Ev.isReleaseRead (handleIterCommon (QueryInput.node 5) extFail true).2 = 1 ∧
    countEv Ev.isFreeIterStruct
      (handleIterCommon (QueryInput.node 5) extFail true).2 = 1 ∧
    countEv (Ev.isFreeTreeOf 5) (handleIterCommon (QueryInput.node 5) extFail true).2 = 1 ∧
    ∃ m, Ev.setErrorOut m ∈ (handleIterCommon (QueryInput.node 5) extFail true).2 := by
  obtain ⟨h1, h2, h3, h4, h5⟩ :=
    compile_failure_unwinds_all_state (QueryInput.node 5) extFail true rfl
  exact ⟨h1, h2, h3, h4 5 rfl, h5 rfl⟩

/-- Claim C5: `RediSearch_ResultsIteratorNext` never returns the key of a
tombstoned (or missing) document-table entry: it returns `none` exactly
when every remaining match is dead — in particular on an exhausted or
empty match list — and otherwise returns the key of the first live entry,
skipping the dead prefix. -/
theorem resultsIteratorNext_skips_tombstones (docs : DocTable) (ids : List Nat) :
    (RediSearch_ResultsIteratorNext docs ids = none ↔ ∀ id ∈ ids, docDead docs id) ∧
    (∀ k tl, RediSearch_ResultsIteratorNext docs ids = some (k, tl) →
      ∃ pre id, ids = pre ++ id :: tl ∧ (∀ j ∈ pre, docDead docs j) ∧
        ∃ md, DocTable_Get docs id = some md ∧ md.deleted = false ∧ md.key = k) := by
  induction ids with
  | nil =>
    constructor
    · simp [RediSearch_ResultsIteratorNext]
    · intro k tl h
      simp [RediSearch_ResultsIteratorNext] at h
  | cons i tl ih =>
    cases hmd : DocTable_Get docs i with
    | none =>
      have hdead : docDead docs i := by
        intro md h
        rw [hmd] at h
        cases h
      have hstep : RediSearch_ResultsIteratorNext docs (i :: tl) =
          RediSearch_ResultsIteratorNext docs tl := by
        simp [RediSearch_ResultsIteratorNext, hmd]
      constructor
      · rw [hstep]
        constructor
        · intro h j hj
          rcases List.mem_cons.1 hj with rfl | hj2
          · exact hdead
          · exact (ih.1.mp h) j hj2
        · intro h
          exact ih.1.mpr fun j hj => h j (List.mem_cons_of_mem _ hj)
      · intro k tl2 h
        rw [hstep] at h
        obtain ⟨pre, j, heq, hpre, md, hmd2, hdel, hkey⟩ := ih.2 k tl2 h
        refine ⟨i :: pre, j, by rw [heq]; rfl, ?_, md, hmd2, hdel, hkey⟩
        intro x hx
        rcases List.mem_cons.1 hx with rfl | hx2
        · exact hdead
        · exact hpre x hx2
    | some md =>
      cases hdel : md.deleted with
      | true =>
        have hdead : docDead docs i := by
          intro md2 h
          rw [hmd] at h
          cases h
          exact hdel
        have hstep : RediSearch_ResultsIteratorNext docs (i :: tl) =
            RediSearch_ResultsIteratorNext docs tl := by
          simp [RediSearch_ResultsIteratorNext, hmd, hdel]
        constructor
        · rw [hstep]
          constructor
          · intro h j hj
            rcases List.mem_cons.1 hj with rfl | hj2
            · exact hdead
            · exact (ih.1.mp h) j hj2
          · intro h
            exact ih.1.mpr fun j hj => h j (List.mem_cons_of_mem _ hj)
        · intro k tl2 h
          rw [hstep] at h
          obtain ⟨pre, j, heq, hpre, md2, hmd2, hdel2, hkey⟩ := ih.2 k tl2 h
          refine ⟨i :: pre, j, by rw [heq]; rfl, ?_, md2, hmd2, hdel2, hkey⟩
          intro x hx
          rcases List.mem_cons.1 hx with rfl | hx2
          · exact hdead
          · exact hpre x hx2
      | false =>
        have hstep : RediSearch_ResultsIteratorNext docs (i :: tl) =
            some (md.key, tl) := by
          simp [RediSearch_ResultsIteratorNext, hmd, hdel]
        constructor
        · rw [hstep]
          constructor
          · intro h
            cases h
          · intro h
            exfalso
            have hx := h i (List.mem_cons_self i tl) md hmd
            rw [hdel] at hx
            cases hx
        · intro k tl2 h
          rw [hstep] at h
          injection h with h1
          injection h1 with hk htl
          subst htl
          exact ⟨[], i, by simp, by simp, md, hmd, hdel, hk⟩

/-- Witness for C5: on a match list whose first entry is tombstoned,
`Next` skips it and returns the key of the live second entry. -/
theorem resultsIteratorNext_skips_tombstones_witness :
    ∃ pre id, ([1, 2] : List Nat) = pre ++ id :: ([] : List Nat) ∧
      (∀ j ∈ pre, docDead docsW j) ∧
      ∃ md, DocTable_Get docsW id = some md ∧ md.deleted = false ∧ md.key = "b" :=
  (resultsIteratorNext_skips_tombstones docsW [1, 2]).2 "b" [] rfl

/-- Claim C6: submitting an existing key without the replace option fails
with `REDISMODULE_ERR` and the message "Document already exists", leaving
the index state (table and live count) unchanged; with the replace option
and a clean external indexing outcome the call returns `REDISMODULE_OK`
and leaves the live document count unchanged. -/
theorem addDocument_existing_key_conflict_or_replace (sp : IndexSpecSt)
    (key : String) (es : Bool) (h : DocTable_GetIdR sp.docs key ≠ 0) :
    (RediSearch_IndexAddDocument sp key false es none).rc = REDISMODULE_ERR ∧
    (RediSearch_IndexAddDocument sp key false es none).sp = sp ∧
    (es = true → (RediSearch_IndexAddDocument sp key false es none).errOut =
      some "Document already exists") ∧
    (RediSearch_IndexAddDocument sp key true es none).rc = REDISMODULE_OK ∧
    (RediSearch_IndexAddDocument sp key true es none).sp.numDocuments =
      sp.numDocuments := by
  have hb : (DocTable_GetIdR sp.docs key != 0) = true := by
    simpa [bne_iff_ne] using h
  simp only [DocTable_GetIdR] at h
  refine ⟨?_, ?_, ?_, ?_, ?_⟩ <;>
    simp [RediSearch_IndexAddDocument, AddDocumentCtx_Submit, hb, h]

/-- Witness for C6: re-adding `doc1` to a one-document index without
replace is a conflict with the documented message; with replace it
succeeds. -/
theorem addDocument_existing_key_conflict_or_replace_witness :
    (RediSearch_IndexAddDocument spOne "doc1" false true none).rc = REDISMODULE_ERR ∧
    (RediSearch_IndexAddDocument spOne "doc1" false true none).errOut =
      some "Document already exists" ∧
    (RediSearch_IndexAddDocument spOne "doc1" true true none).rc = REDISMODULE_OK := by
  obtain ⟨h1, -, h3, h4, -⟩ :=
    addDocument_existing_key_conflict_or_replace spOne "doc1" true (by decide)
  exact ⟨h1, h3 rfl, h4⟩

/-- Claim C7: deleting an absent key (internal identifier 0) returns a
not-found error with the index unchanged; deleting a present key keeps the
entry in the table with the tombstone flag set (the key no longer
resolves) and decrements the live document count by exactly one. -/
theorem deleteDocument_miss_error_hit_tombstones (sp : IndexSpecSt) (key : String) :
    (DocTable_GetIdR sp.docs key = 0 →
      RediSearch_DeleteDocument sp key = (REDISMODULE_ERR, sp)) ∧
    (∀ md, DocTable_GetIdR sp.docs key ≠ 0 →
      sp.docs.byId (DocTable_GetIdR sp.docs key) = some md →
      (RediSearch_DeleteDocument sp key).2.docs.byId (DocTable_GetIdR sp.docs key) =
        some { md with deleted := true } ∧
      (RediSearch_DeleteDocument sp key).2.numDocuments = sp.numDocuments - 1 ∧
      (RediSearch_DeleteDocument sp key).2.docs.byKey key = 0) := by
  constructor
  · intro h
    simp only [DocTable_GetIdR] at h
    simp [RediSearch_DeleteDocument, DocTable_GetIdR, h]
  · intro md h1 h2
    simp only [DocTable_GetIdR] at h1 h2 ⊢
    simp [RediSearch_DeleteDocument, DocTable_DeleteR, DocTable_GetIdR, h1, h2]

/-- Witness for C7: deleting `doc1` from the one-document index leaves a
tombstoned entry under identifier 1 and a live count of zero. -/
theorem deleteDocument_miss_error_hit_tombstones_witness :
    (RediSearch_DeleteDocument spOne "doc1").2.docs.byId 1 =
      some { key := "doc1", deleted := true } ∧
    (RediSearch_DeleteDocument spOne "doc1").2.numDocuments = 0 := by
  obtain ⟨-, h⟩ := deleteDocument_miss_error_hit_tombstones spOne "doc1"
  obtain ⟨h1, h2, -⟩ :=
    h { key := "doc1", deleted := false } (by decide) (by decide)
  refine ⟨h1, ?_⟩
  rw [h2]
  decide

/-- Counterexample to claim C8 as stated: with an empty type set the call
does not fail with an error return — `assert(types)` aborts instead. -/
theorem createField_empty_types_no_error_return :
    (RediSearch_CreateField spFieldsEmpty "f" 0 0).1 ≠ CreateFieldResult.failed ∧
    (RediSearch_CreateField spFieldsEmpty "f" 0 0).1 = CreateFieldResult.aborted := by
  decide

/-- Claim C8 (amended): field creation with an empty type set never
creates a field: `assert(types)` fails and the call aborts with the index
unchanged, rather than returning an error value. -/
theorem createField_empty_types_aborts (sp : FieldIndexSt) (name : String)
    (options : Nat) :
    RediSearch_CreateField sp name 0 options = (CreateFieldResult.aborted, sp) := by
  simp [RediSearch_CreateField]

/-- Claim C9 at the failing input: a duplicate-key submission without the
replace option frees the document contents the add-context adopted but
never frees the document record cell (`rm_free(d)` is skipped by the
conflict return), while the submit path frees both. -/
theorem addDocument_conflict_skips_record_cell_free :
    (RediSearch_IndexAddDocument spOne "doc1" false false none).events.count
        AddEv.freeDocCell = 0 ∧
    (RediSearch_IndexAddDocument spOne "doc1" false false none).events.count
        AddEv.freeDocContents = 1 ∧
    (RediSearch_IndexAddDocument spOne "doc1" true false none).events.count
        AddEv.freeDocCell = 1 := by
  decide

/-- Claim C10: `RediSearch_CreateIndex` with a null options pointer starts
a collector (the stack default sets the fork policy), while an untouched
object from `RediSearch_CreateIndexOptions` carries policy
`GC_POLICY_NONE` and yields an index with no collector: the two default
paths differ. -/
theorem createIndex_null_vs_freshOptions_gc :
    (RediSearch_CreateIndex none).gcStarted = true ∧
    RediSearch_CreateIndexOptions.gcPolicy = GCPolicy.NONE ∧
    (RediSearch_CreateIndex (some RediSearch_CreateIndexOptions)).gcStarted = false := by
  decide

end RediSearchApi
